import Mathlib

/-
Shallow embedding of the MobileGameDev server
(src/server/MobileGameDevServer/{server.js, apis/news_api.js, apis/score_api.js}).

Request-body fields are JavaScript values tested for truthiness by the
handlers; they are modelled by `JsVal`.  The DynamoDB tables are modelled
as lists of rows; a numeric attribute value (the `N: "..."` encoding) is
modelled by the integer it denotes.  A `query` with `ScanIndexForward:
false` returns the matching rows sorted by sort key descending; `putItem`
replaces any row with the same composite key; `deleteItem` removes the
keyed row (succeeding even when absent), and with an `Expected` clause it
fails with `ConditionalCheckFailedException` unless the row exists and the
named attribute matches.  External-store failures are nondeterministic, so
each handler takes one `Option String` per store call it makes: `none`
means the call succeeds, `some e` means the store reports error `e`.
Handlers record the store calls they issue in `calls`, so that "never
contacts the store" is observable.
-/

namespace MobileGameDev

/-- A JavaScript value as it appears in a parsed JSON request body:
absent (`undef`), a string, or a number. -/
inductive JsVal where
  | undef : JsVal
  | str : String → JsVal
  | num : Int → JsVal
deriving DecidableEq

/-- JavaScript truthiness, as tested by `if (req.body.field)`:
`undefined`, `""` and `0` are falsy. -/
def JsVal.truthy : JsVal → Bool
  | .undef => false
  | .str s => s != ""
  | .num n => n != 0

/-- The string a JsVal contributes to an `{ S: ... }` attribute. -/
def JsVal.asString : JsVal → String
  | .undef => "undefined"
  | .str s => s
  | .num n => toString n

/-- The number a JsVal contributes to an `{ N: ... }` key attribute. -/
def JsVal.asKeyNum : JsVal → Int
  | .undef => 0
  | .str s => (s.toInt?).getD 0
  | .num n => n

/-- A field that is present in the JSON body but carries one of the
falsy values a client can send: the empty string or the number 0. -/
def JsVal.falsyValue (v : JsVal) : Prop :=
  v = JsVal.str "" ∨ v = JsVal.num 0

/-- A row of the `UWS-MobileGameDevNews` table:
partition key `Service`, numeric sort key `PostID`. -/
structure NewsRow where
  Heading : String
  PostID : Int
  Service : String
  Text : String
deriving DecidableEq

/-- A row of the `UWS-MobileGameDevScores` table:
partition key `Service`, numeric sort key `Highscore`. -/
structure ScoreRow where
  Service : String
  Highscore : Int
  Name : String
deriving DecidableEq

/-- The store calls a handler can issue, recorded for observation. -/
inductive DbCall where
  | queryNewsTable : String → DbCall
  | putNewsItem : NewsRow → DbCall
  | deleteNewsItem : String → Int → DbCall
  | queryScoresTable : DbCall
  | putScoreItem : ScoreRow → DbCall
  | deleteScoreItem : String → Int → String → DbCall
deriving DecidableEq

/-- What a handler sends through `res.json`: a `{msg: string}` object, a
`{msg: err}` object passing a store error through, or an items array. -/
inductive Response where
  | msg : String → Response
  | msgErr : String → Response
  | newsItems : List NewsRow → Response
  | scoreItems : List ScoreRow → Response
deriving DecidableEq

/-- Result of running one handler: the JSON response sent (none when the
handler never calls `res.json`), the table state afterwards, and the
store calls issued. -/
structure HandlerResult (σ : Type) where
  response : Option Response
  store : σ
  calls : List DbCall
deriving DecidableEq

/-- DynamoDB key uniqueness for the news table: no two rows share the
composite key (Service, PostID). -/
def NewsWF (store : List NewsRow) : Prop :=
  store.Pairwise (fun a b => ¬(a.Service = b.Service ∧ a.PostID = b.PostID))

/-- DynamoDB key uniqueness for the scores table: no two rows share the
composite key (Service, Highscore). -/
def ScoresWF (store : List ScoreRow) : Prop :=
  store.Pairwise (fun a b => ¬(a.Service = b.Service ∧ a.Highscore = b.Highscore))

namespace API_News

/-- Rows sorted by `PostID` descending (`ScanIndexForward: false`). -/
def sortNewsDesc (l : List NewsRow) : List NewsRow :=
  List.insertionSort (fun a b => b.PostID ≤ a.PostID) l

/-- The news-table query shared by `getPostID` and `handleListNews`:
`Service EQ version`, `PostID GE 0`, descending. -/
def queryNews (store : List NewsRow) (version : String) : List NewsRow :=
  sortNewsDesc (store.filter (fun r => r.Service == version && decide (0 ≤ r.PostID)))

/-- The string `getPostID` passes to its callback on the success path:
"0" when the query returns no rows, otherwise the first (highest) PostID
incremented, rendered in decimal. -/
def getPostID (store : List NewsRow) (version : String) : String :=
  match queryNews store version with
  | [] => "0"
  | r :: _ => toString (r.PostID + 1)

/-- The numeric value denoted by the `N: postNumber` attribute that
`handleNewsPost` writes: the integer `getPostID`'s string denotes. -/
def nextPostID (store : List NewsRow) (version : String) : Int :=
  match queryNews store version with
  | [] => 0
  | r :: _ => r.PostID + 1

/-- `dynamodb.putItem`: replaces any row with the same composite key. -/
def putItem (store : List NewsRow) (row : NewsRow) : List NewsRow :=
  row :: store.filter (fun x => !(x.Service == row.Service && x.PostID == row.PostID))

/-- `dynamodb.deleteItem` with no `Expected` clause: removes the keyed
row, a no-op when it is absent. -/
def deleteItem (store : List NewsRow) (service : String) (postID : Int) : List NewsRow :=
  store.filter (fun x => !(x.Service == service && x.PostID == postID))

/-- Body of a `/news/postNews/` request. -/
structure NewsPostBody where
  heading : JsVal
  service : JsVal
  text : JsVal
deriving DecidableEq

/-- Body of a `/news/deleteNews/` request. -/
structure NewsDeleteBody where
  service : JsVal
  postID : JsVal
deriving DecidableEq

/-- `API_News.prototype.handleNewsPost`.  Validates truthiness of
heading/service/text; on success runs `getPostID` (a query, whose error
branch only logs, so the callback is never invoked and no response is
sent) and then `putItem` with the allocated id. -/
def handleNewsPost (body : NewsPostBody) (store : List NewsRow)
    (queryErr putErr : Option String) : HandlerResult (List NewsRow) :=
  if body.heading.truthy && body.service.truthy && body.text.truthy then
    match queryErr with
    | some _ => ⟨none, store, [DbCall.queryNewsTable body.service.asString]⟩
    | none =>
      let row : NewsRow :=
        { Heading := body.heading.asString
          PostID := nextPostID store body.service.asString
          Service := body.service.asString
          Text := body.text.asString }
      match putErr with
      | some e => ⟨some (Response.msgErr e), store,
          [DbCall.queryNewsTable body.service.asString, DbCall.putNewsItem row]⟩
      | none => ⟨some (Response.msg "News Posted"), putItem store row,
          [DbCall.queryNewsTable body.service.asString, DbCall.putNewsItem row]⟩
  else
    ⟨some (Response.msg "Didnt provide all information needed"), store, []⟩

/-- `API_News.prototype.handleListNews`: queries the hardcoded partition
"VERSION1" descending; the error branch only logs (no response). -/
def handleListNews (store : List NewsRow) (queryErr : Option String) :
    HandlerResult (List NewsRow) :=
  match queryErr with
  | some _ => ⟨none, store, [DbCall.queryNewsTable "VERSION1"]⟩
  | none => ⟨some (Response.newsItems (queryNews store "VERSION1")), store,
      [DbCall.queryNewsTable "VERSION1"]⟩

/-- `API_News.prototype.handleDeleteRequest`: validates truthiness of
service/postID, then deletes by exact composite key with no condition. -/
def handleDeleteRequest (body : NewsDeleteBody) (store : List NewsRow)
    (deleteErr : Option String) : HandlerResult (List NewsRow) :=
  if body.service.truthy && body.postID.truthy then
    match deleteErr with
    | some e => ⟨some (Response.msgErr e), store,
        [DbCall.deleteNewsItem body.service.asString body.postID.asKeyNum]⟩
    | none => ⟨some (Response.msg "item deleted successful"),
        deleteItem store body.service.asString body.postID.asKeyNum,
        [DbCall.deleteNewsItem body.service.asString body.postID.asKeyNum]⟩
  else
    ⟨some (Response.msg "invalid request"), store, []⟩

end API_News

namespace API_Score

/-- Rows sorted by `Highscore` descending (`ScanIndexForward: false`). -/
def sortScoresDesc (l : List ScoreRow) : List ScoreRow :=
  List.insertionSort (fun a b => b.Highscore ≤ a.Highscore) l

/-- The `handleGetScores` query: `Service EQ "VERSION1"`,
`Highscore GE 0`, descending, `Limit: 5`. -/
def queryScores (store : List ScoreRow) : List ScoreRow :=
  (sortScoresDesc (store.filter
    (fun r => r.Service == "VERSION1" && decide (0 ≤ r.Highscore)))).take 5

/-- `dynamodb.putItem` on the scores table. -/
def putItem (store : List ScoreRow) (row : ScoreRow) : List ScoreRow :=
  row :: store.filter (fun x => !(x.Service == row.Service && x.Highscore == row.Highscore))

/-- `dynamodb.deleteItem` with `Expected: { Name: { Exists: true, Value:
... } }`: succeeds, removing the keyed row, only when a row exists at the
key and its `Name` equals the expected value; otherwise the store reports
a conditional-check failure and the table is unchanged. -/
def conditionalDelete (store : List ScoreRow) (service : String) (highscore : Int)
    (expectedName : String) : Except String (List ScoreRow) :=
  match store.find? (fun x => x.Service == service && x.Highscore == highscore) with
  | some row =>
      if row.Name == expectedName then
        Except.ok (store.filter (fun x => !(x.Service == service && x.Highscore == highscore)))
      else
        Except.error "ConditionalCheckFailedException"
  | none => Except.error "ConditionalCheckFailedException"

/-- Body of a `/score/postScore/` request. -/
structure ScorePostBody where
  service : JsVal
  highscore : JsVal
  name : JsVal
deriving DecidableEq

/-- Body of a `/score/deleteScore/` request. -/
structure ScoreDeleteBody where
  service : JsVal
  highscore : JsVal
  name : JsVal
deriving DecidableEq

/-- `API_Score.prototype.handleGetScores`: the top-5 query; the error
branch only logs (no response). -/
def handleGetScores (store : List ScoreRow) (queryErr : Option String) :
    HandlerResult (List ScoreRow) :=
  match queryErr with
  | some _ => ⟨none, store, [DbCall.queryScoresTable]⟩
  | none => ⟨some (Response.scoreItems (queryScores store)), store,
      [DbCall.queryScoresTable]⟩

/-- `API_Score.prototype.handleScorePost`: validates truthiness of
service/highscore/name, then `putItem` (overwriting the keyed row). -/
def handleScorePost (body : ScorePostBody) (store : List ScoreRow)
    (putErr : Option String) : HandlerResult (List ScoreRow) :=
  if body.service.truthy && body.highscore.truthy && body.name.truthy then
    let row : ScoreRow :=
      { Service := body.service.asString
        Highscore := body.highscore.asKeyNum
        Name := body.name.asString }
    match putErr with
    | some _ => ⟨some (Response.msg "Score Post Failed"), store, [DbCall.putScoreItem row]⟩
    | none => ⟨some (Response.msg "Score Posted"), putItem store row,
        [DbCall.putScoreItem row]⟩
  else
    ⟨some (Response.msg "Invalid params"), store, []⟩

/-- `API_Score.prototype.handleDeleteRequest`: validates truthiness of
service/name/highscore, then a conditional delete on `Name`; any store
error is passed through in the `{msg: err}` response. -/
def handleDeleteRequest (body : ScoreDeleteBody) (store : List ScoreRow)
    (deleteErr : Option String) : HandlerResult (List ScoreRow) :=
  if body.service.truthy && body.name.truthy && body.highscore.truthy then
    match deleteErr with
    | some e => ⟨some (Response.msgErr e), store,
        [DbCall.deleteScoreItem body.service.asString body.highscore.asKeyNum
          body.name.asString]⟩
    | none =>
      match conditionalDelete store body.service.asString body.highscore.asKeyNum
          body.name.asString with
      | Except.ok store2 => ⟨some (Response.msg "item deleted successful"), store2,
          [DbCall.deleteScoreItem body.service.asString body.highscore.asKeyNum
            body.name.asString]⟩
      | Except.error e => ⟨some (Response.msgErr e), store,
          [DbCall.deleteScoreItem body.service.asString body.highscore.asKeyNum
            body.name.asString]⟩
  else
    ⟨some (Response.msg "invalid request"), store, []⟩

end API_Score

namespace Server

/-- `this.portNumber` as set by the `Server` constructor. -/
def initialPortNumber : Int := 3000

/-- `Server.prototype.setListeningPort`: the source tests
`this.portNumber >= 2000` — the field's current value, not the supplied
argument — and assigns the argument when that test passes. -/
def setListeningPort (currentPortNumber : Int) (portNumber : Int) : Int :=
  if 2000 ≤ currentPortNumber then portNumber else 3000

/-- The effective port after the startup sequence
`new Server(...)` then `server.setListeningPort(3005)`. -/
def startupPort : Int := setListeningPort initialPortNumber 3005

end Server

instance : IsTotal NewsRow (fun a b => b.PostID ≤ a.PostID) :=
  ⟨fun a b => le_total b.PostID a.PostID⟩

instance : IsTrans NewsRow (fun a b => b.PostID ≤ a.PostID) :=
  ⟨fun _ _ _ h1 h2 => le_trans h2 h1⟩

instance : IsTotal ScoreRow (fun a b => b.Highscore ≤ a.Highscore) :=
  ⟨fun a b => le_total b.Highscore a.Highscore⟩

instance : IsTrans ScoreRow (fun a b => b.Highscore ≤ a.Highscore) :=
  ⟨fun _ _ _ h1 h2 => le_trans h2 h1⟩

theorem newsKeyRel_symm :
    Symmetric (fun a b : NewsRow => ¬(a.Service = b.Service ∧ a.PostID = b.PostID)) :=
  fun _ _ h hc => h ⟨hc.1.symm, hc.2.symm⟩

theorem scoreKeyRel_symm :
    Symmetric (fun a b : ScoreRow => ¬(a.Service = b.Service ∧ a.Highscore = b.Highscore)) :=
  fun _ _ h hc => h ⟨hc.1.symm, hc.2.symm⟩

theorem newsKey_unique {store : List NewsRow} (hwf : NewsWF store) {a b : NewsRow}
    (ha : a ∈ store) (hb : b ∈ store) (hS : a.Service = b.Service)
    (hP : a.PostID = b.PostID) : a = b := by
  by_contra hne
  exact List.Pairwise.forall newsKeyRel_symm hwf ha hb hne ⟨hS, hP⟩

theorem scoresKey_unique {store : List ScoreRow} (hwf : ScoresWF store) {a b : ScoreRow}
    (ha : a ∈ store) (hb : b ∈ store) (hS : a.Service = b.Service)
    (hH : a.Highscore = b.Highscore) : a = b := by
  by_contra hne
  exact List.Pairwise.forall scoreKeyRel_symm hwf ha hb hne ⟨hS, hH⟩

theorem mem_queryNews {store : List NewsRow} {v : String} {r : NewsRow} :
    r ∈ API_News.queryNews store v ↔ r ∈ store ∧ r.Service = v ∧ 0 ≤ r.PostID := by
  unfold API_News.queryNews API_News.sortNewsDesc
  rw [List.Perm.mem_iff (List.perm_insertionSort _ _), List.mem_filter]
  simp [and_assoc]

theorem sorted_queryNews (store : List NewsRow) (v : String) :
    List.Sorted (fun a b => b.PostID ≤ a.PostID) (API_News.queryNews store v) :=
  List.sorted_insertionSort _ _

theorem queryNews_eq_nil {store : List NewsRow} {v : String} :
    API_News.queryNews store v = [] ↔ ∀ r ∈ store, r.Service = v → ¬(0 ≤ r.PostID) := by
  rw [List.eq_nil_iff_forall_not_mem]
  constructor
  · intro H r hr hs hn
    exact H r (mem_queryNews.mpr ⟨hr, hs, hn⟩)
  · intro H r hmem
    obtain ⟨hr, hs, hn⟩ := mem_queryNews.mp hmem
    exact H r hr hs hn

theorem queryNews_head_max {store : List NewsRow} {v : String} {h : NewsRow} {t : List NewsRow}
    (he : API_News.queryNews store v = h :: t) :
    (h ∈ store ∧ h.Service = v ∧ 0 ≤ h.PostID) ∧
      ∀ r ∈ store, r.Service = v → 0 ≤ r.PostID → r.PostID ≤ h.PostID := by
  refine ⟨mem_queryNews.mp (he ▸ List.mem_cons_self h t), ?_⟩
  intro r hr hsv hnn
  have hmem : r ∈ API_News.queryNews store v := mem_queryNews.mpr ⟨hr, hsv, hnn⟩
  have hsorted := sorted_queryNews store v
  rw [he] at hmem hsorted
  rcases List.mem_cons.mp hmem with h1 | h1
  · exact h1 ▸ le_refl _
  · exact List.rel_of_sorted_cons hsorted r h1

theorem getPostID_eq_toString (store : List NewsRow) (v : String) :
    API_News.getPostID store v = toString (API_News.nextPostID store v) := by
  unfold API_News.getPostID API_News.nextPostID
  cases API_News.queryNews store v with
  | nil => decide
  | cons h t => rfl

/-- C1: for every partition key, `getPostID` returns the decimal-string
successor of the numerically highest PostID stored for that partition
("0" when the partition holds no rows), and the subsequent news post
stores a row carrying exactly that ID. -/
theorem C1_getPostID_allocates_successor (store : List NewsRow) (v heading text : String)
    (hhd : heading ≠ "") (hv : v ≠ "") (htx : text ≠ "")
    (hnn : ∀ r ∈ store, r.Service = v → 0 ≤ r.PostID) :
    ((∀ r ∈ store, r.Service ≠ v) → API_News.getPostID store v = "0") ∧
    (∀ m ∈ store, m.Service = v →
      (∀ r ∈ store, r.Service = v → r.PostID ≤ m.PostID) →
      API_News.getPostID store v = toString (m.PostID + 1)) ∧
    (∃ row ∈ (API_News.handleNewsPost ⟨JsVal.str heading, JsVal.str v, JsVal.str text⟩
        store none none).store,
      row.Service = v ∧ toString row.PostID = API_News.getPostID store v ∧
      row.Heading = heading ∧ row.Text = text) := by
  refine ⟨?_, ?_, ?_⟩
  · intro hno
    have hq : API_News.queryNews store v = [] :=
      queryNews_eq_nil.mpr (fun r hr hs => absurd hs (hno r hr))
    simp [API_News.getPostID, hq]
  · intro m hm hms hmax
    cases hq : API_News.queryNews store v with
    | nil =>
      have : m ∈ API_News.queryNews store v :=
        mem_queryNews.mpr ⟨hm, hms, hnn m hm hms⟩
      rw [hq] at this
      exact absurd this (List.not_mem_nil m)
    | cons h t =>
      obtain ⟨⟨hhs, hhv, hh0⟩, hmaxh⟩ := queryNews_head_max hq
      have h1 : h.PostID ≤ m.PostID := hmax h hhs hhv
      have h2 : m.PostID ≤ h.PostID := hmaxh m hm hms (hnn m hm hms)
      have : h.PostID = m.PostID := le_antisymm h1 h2
      simp [API_News.getPostID, hq, this]
  · have hcond : ((JsVal.str heading).truthy && (JsVal.str v).truthy &&
        (JsVal.str text).truthy) = true := by
      simp [JsVal.truthy, hhd, hv, htx]
    refine ⟨⟨heading, API_News.nextPostID store v, v, text⟩, ?_, rfl, ?_, rfl, rfl⟩
    · simp [API_News.handleNewsPost, hcond, JsVal.asString, API_News.putItem]
    · exact (getPostID_eq_toString store v).symm

/-- C1 witness: the theorem applied at a concrete two-row store. -/
theorem C1_witness :
    ((("Patch" : String) ≠ "") ∧ (("VERSION1" : String) ≠ "") ∧ (("Fixed" : String) ≠ "") ∧
      (∀ r ∈ [({ Heading := "h1", PostID := 4, Service := "VERSION1", Text := "t1" } : NewsRow),
              { Heading := "h2", PostID := 2, Service := "VERSION1", Text := "t2" }],
        r.Service = "VERSION1" → 0 ≤ r.PostID)) ∧
    (((∀ r ∈ [({ Heading := "h1", PostID := 4, Service := "VERSION1", Text := "t1" } : NewsRow),
              { Heading := "h2", PostID := 2, Service := "VERSION1", Text := "t2" }],
        r.Service ≠ "VERSION1") →
      API_News.getPostID
        [{ Heading := "h1", PostID := 4, Service := "VERSION1", Text := "t1" },
         { Heading := "h2", PostID := 2, Service := "VERSION1", Text := "t2" }] "VERSION1" = "0") ∧
    (∀ m ∈ [({ Heading := "h1", PostID := 4, Service := "VERSION1", Text := "t1" } : NewsRow),
            { Heading := "h2", PostID := 2, Service := "VERSION1", Text := "t2" }],
      m.Service = "VERSION1" →
      (∀ r ∈ [({ Heading := "h1", PostID := 4, Service := "VERSION1", Text := "t1" } : NewsRow),
              { Heading := "h2", PostID := 2, Service := "VERSION1", Text := "t2" }],
        r.Service = "VERSION1" → r.PostID ≤ m.PostID) →
      API_News.getPostID
        [{ Heading := "h1", PostID := 4, Service := "VERSION1", Text := "t1" },
         { Heading := "h2", PostID := 2, Service := "VERSION1", Text := "t2" }] "VERSION1" =
        toString (m.PostID + 1)) ∧
    (∃ row ∈ (API_News.handleNewsPost ⟨JsVal.str "Patch", JsVal.str "VERSION1", JsVal.str "Fixed"⟩
        [{ Heading := "h1", PostID := 4, Service := "VERSION1", Text := "t1" },
         { Heading := "h2", PostID := 2, Service := "VERSION1", Text := "t2" }] none none).store,
      row.Service = "VERSION1" ∧
      toString row.PostID = API_News.getPostID
        [{ Heading := "h1", PostID := 4, Service := "VERSION1", Text := "t1" },
         { Heading := "h2", PostID := 2, Service := "VERSION1", Text := "t2" }] "VERSION1" ∧
      row.Heading = "Patch" ∧ row.Text = "Fixed")) :=
  ⟨⟨by decide, by decide, by decide, by decide⟩,
   C1_getPostID_allocates_successor
     [{ Heading := "h1", PostID := 4, Service := "VERSION1", Text := "t1" },
      { Heading := "h2", PostID := 2, Service := "VERSION1", Text := "t2" }]
     "VERSION1" "Patch" "Fixed" (by decide) (by decide) (by decide) (by decide)⟩

/-- C5: at startup the effective port becomes 3005, but `setListeningPort`
tests the field's old value instead of the supplied argument, so an
invalid value below 2000 is accepted (100 becomes the effective port
rather than falling back to 3000), and a later valid value is rejected. -/
theorem C5_setListeningPort_validates_wrong_value :
    Server.startupPort = 3005 ∧
    Server.setListeningPort Server.initialPortNumber 100 = 100 ∧
    Server.setListeningPort Server.initialPortNumber 100 ≠ 3000 ∧
    Server.setListeningPort 100 5000 = 3000 := by decide

/-- C9: with both fields present (truthy), `deleteNews` returns the
success message on every store state — whether or not a matching row
exists — and running it twice with the same key leaves the store exactly
as running it once. -/
theorem C9_deleteNews_idempotent_success (store : List NewsRow) (s : String) (p : Int)
    (hs : s ≠ "") (hp : p ≠ 0) :
    (API_News.handleDeleteRequest ⟨JsVal.str s, JsVal.num p⟩ store none).response =
      some (Response.msg "item deleted successful") ∧
    (API_News.handleDeleteRequest ⟨JsVal.str s, JsVal.num p⟩
        (API_News.handleDeleteRequest ⟨JsVal.str s, JsVal.num p⟩ store none).store
        none).response =
      some (Response.msg "item deleted successful") ∧
    (API_News.handleDeleteRequest ⟨JsVal.str s, JsVal.num p⟩
        (API_News.handleDeleteRequest ⟨JsVal.str s, JsVal.num p⟩ store none).store
        none).store =
      (API_News.handleDeleteRequest ⟨JsVal.str s, JsVal.num p⟩ store none).store := by
  have hcond : ((JsVal.str s).truthy && (JsVal.num p).truthy) = true := by
    simp [JsVal.truthy, hs, hp]
  refine ⟨?_, ?_, ?_⟩ <;>
    simp [API_News.handleDeleteRequest, hcond, API_News.deleteItem,
      List.filter_filter, Bool.and_self]

/-- C9 witness: deleting a key that is absent from a one-row store. -/
theorem C9_witness :
    ((("VERSION1" : String) ≠ "") ∧ ((3 : Int) ≠ 0)) ∧
    ((API_News.handleDeleteRequest ⟨JsVal.str "VERSION1", JsVal.num 3⟩
        [{ Heading := "h1", PostID := 4, Service := "VERSION1", Text := "t1" }] none).response =
      some (Response.msg "item deleted successful") ∧
    (API_News.handleDeleteRequest ⟨JsVal.str "VERSION1", JsVal.num 3⟩
        (API_News.handleDeleteRequest ⟨JsVal.str "VERSION1", JsVal.num 3⟩
          [{ Heading := "h1", PostID := 4, Service := "VERSION1", Text := "t1" }] none).store
        none).response =
      some (Response.msg "item deleted successful") ∧
    (API_News.handleDeleteRequest ⟨JsVal.str "VERSION1", JsVal.num 3⟩
        (API_News.handleDeleteRequest ⟨JsVal.str "VERSION1", JsVal.num 3⟩
          [{ Heading := "h1", PostID := 4, Service := "VERSION1", Text := "t1" }] none).store
        none).store =
      (API_News.handleDeleteRequest ⟨JsVal.str "VERSION1", JsVal.num 3⟩
        [{ Heading := "h1", PostID := 4, Service := "VERSION1", Text := "t1" }] none).store) :=
  ⟨⟨by decide, by decide⟩,
   C9_deleteNews_idempotent_success
     [{ Heading := "h1", PostID := 4, Service := "VERSION1", Text := "t1" }]
     "VERSION1" 3 (by decide) (by decide)⟩

theorem filter_not_self (p : α → Bool) (l : List α) :
    (l.filter (fun x => !(p x))).filter p = [] := by
  rw [List.filter_filter]
  apply List.filter_eq_nil_iff.mpr
  intro a _
  cases hpa : p a <;> simp [hpa]

/-- C8: a valid `postScore` leaves exactly one row at the composite key
(service, highscore), carrying the new name — an existing row at the key
is overwritten, not duplicated — while rows at other keys survive. -/
theorem C8_postScore_overwrites (store : List ScoreRow) (s n : String) (h : Int)
    (hs : s ≠ "") (hn : n ≠ "") (hh : h ≠ 0) :
    (API_Score.handleScorePost ⟨JsVal.str s, JsVal.num h, JsVal.str n⟩ store none).response =
      some (Response.msg "Score Posted") ∧
    ((API_Score.handleScorePost ⟨JsVal.str s, JsVal.num h, JsVal.str n⟩ store
        none).store).filter (fun x => x.Service == s && x.Highscore == h) =
      [{ Service := s, Highscore := h, Name := n }] ∧
    (∀ r ∈ store, ¬(r.Service = s ∧ r.Highscore = h) →
      r ∈ (API_Score.handleScorePost ⟨JsVal.str s, JsVal.num h, JsVal.str n⟩ store
        none).store) := by
  have hcond : ((JsVal.str s).truthy && (JsVal.num h).truthy && (JsVal.str n).truthy) = true := by
    simp [JsVal.truthy, hs, hh, hn]
  refine ⟨?_, ?_, ?_⟩
  · simp [API_Score.handleScorePost, hcond]
  · simp only [API_Score.handleScorePost, hcond, if_true, API_Score.putItem, JsVal.asString,
      JsVal.asKeyNum]
    rw [List.filter_cons_of_pos (by simp), filter_not_self]
  · intro r hr hkey
    simp only [API_Score.handleScorePost, hcond, if_true, API_Score.putItem, JsVal.asString,
      JsVal.asKeyNum]
    refine List.mem_cons_of_mem _ (List.mem_filter.mpr ⟨hr, ?_⟩)
    simp only [Bool.not_eq_true']
    rcases Decidable.em (r.Service = s) with hS | hS
    · have : r.Highscore ≠ h := fun hc => hkey ⟨hS, hc⟩
      simp [this]
    · simp [hS]

/-- C8 witness: posting over an existing row at the same key. -/
theorem C8_witness :
    ((("VERSION1" : String) ≠ "") ∧ (("Bob" : String) ≠ "") ∧ ((100 : Int) ≠ 0)) ∧
    ((API_Score.handleScorePost ⟨JsVal.str "VERSION1", JsVal.num 100, JsVal.str "Bob"⟩
        [{ Service := "VERSION1", Highscore := 100, Name := "Alice" }] none).response =
      some (Response.msg "Score Posted") ∧
    ((API_Score.handleScorePost ⟨JsVal.str "VERSION1", JsVal.num 100, JsVal.str "Bob"⟩
        [{ Service := "VERSION1", Highscore := 100, Name := "Alice" }] none).store).filter
        (fun x => x.Service == "VERSION1" && x.Highscore == 100) =
      [{ Service := "VERSION1", Highscore := 100, Name := "Bob" }] ∧
    (∀ r ∈ [({ Service := "VERSION1", Highscore := 100, Name := "Alice" } : ScoreRow)],
      ¬(r.Service = "VERSION1" ∧ r.Highscore = 100) →
      r ∈ (API_Score.handleScorePost ⟨JsVal.str "VERSION1", JsVal.num 100, JsVal.str "Bob"⟩
        [{ Service := "VERSION1", Highscore := 100, Name := "Alice" }] none).store)) :=
  ⟨⟨by decide, by decide, by decide⟩,
   C8_postScore_overwrites [{ Service := "VERSION1", Highscore := 100, Name := "Alice" }]
     "VERSION1" "Bob" 100 (by decide) (by decide) (by decide)⟩

/-- C3: a post or delete request with a required body field missing
(absent, i.e. `undefined`) yields the handler's validation-failure
message, leaves the table unchanged, and issues no store call at all. -/
theorem C3_missing_field_no_store_contact (storeN : List NewsRow) (storeS : List ScoreRow)
    (qe pe de pe2 de2 : Option String)
    (nb : API_News.NewsPostBody) (db : API_News.NewsDeleteBody)
    (sb : API_Score.ScorePostBody) (sdb : API_Score.ScoreDeleteBody)
    (hnb : nb.heading = JsVal.undef ∨ nb.service = JsVal.undef ∨ nb.text = JsVal.undef)
    (hdb : db.service = JsVal.undef ∨ db.postID = JsVal.undef)
    (hsb : sb.service = JsVal.undef ∨ sb.highscore = JsVal.undef ∨ sb.name = JsVal.undef)
    (hsdb : sdb.service = JsVal.undef ∨ sdb.highscore = JsVal.undef ∨ sdb.name = JsVal.undef) :
    API_News.handleNewsPost nb storeN qe pe =
      ⟨some (Response.msg "Didnt provide all information needed"), storeN, []⟩ ∧
    API_News.handleDeleteRequest db storeN de =
      ⟨some (Response.msg "invalid request"), storeN, []⟩ ∧
    API_Score.handleScorePost sb storeS pe2 =
      ⟨some (Response.msg "Invalid params"), storeS, []⟩ ∧
    API_Score.handleDeleteRequest sdb storeS de2 =
      ⟨some (Response.msg "invalid request"), storeS, []⟩ := by
  refine ⟨?_, ?_, ?_, ?_⟩
  · have hc : (nb.heading.truthy && nb.service.truthy && nb.text.truthy) = false := by
      rcases hnb with hx | hx | hx <;> simp [hx, JsVal.truthy]
    simp [API_News.handleNewsPost, hc]
  · have hc : (db.service.truthy && db.postID.truthy) = false := by
      rcases hdb with hx | hx <;> simp [hx, JsVal.truthy]
    simp [API_News.handleDeleteRequest, hc]
  · have hc : (sb.service.truthy && sb.highscore.truthy && sb.name.truthy) = false := by
      rcases hsb with hx | hx | hx <;> simp [hx, JsVal.truthy]
    simp [API_Score.handleScorePost, hc]
  · have hc : (sdb.service.truthy && sdb.name.truthy && sdb.highscore.truthy) = false := by
      rcases hsdb with hx | hx | hx <;> simp [hx, JsVal.truthy]
    simp [API_Score.handleDeleteRequest, hc]

/-- C3 witness: one missing field on each endpoint. -/
theorem C3_witness :
    (((⟨JsVal.undef, JsVal.str "VERSION1", JsVal.str "t"⟩ :
        API_News.NewsPostBody).heading = JsVal.undef ∨
      (⟨JsVal.undef, JsVal.str "VERSION1", JsVal.str "t"⟩ :
        API_News.NewsPostBody).service = JsVal.undef ∨
      (⟨JsVal.undef, JsVal.str "VERSION1", JsVal.str "t"⟩ :
        API_News.NewsPostBody).text = JsVal.undef) ∧
     ((⟨JsVal.str "VERSION1", JsVal.undef⟩ : API_News.NewsDeleteBody).service = JsVal.undef ∨
      (⟨JsVal.str "VERSION1", JsVal.undef⟩ : API_News.NewsDeleteBody).postID = JsVal.undef) ∧
     ((⟨JsVal.undef, JsVal.num 100, JsVal.str "Bob"⟩ :
        API_Score.ScorePostBody).service = JsVal.undef ∨
      (⟨JsVal.undef, JsVal.num 100, JsVal.str "Bob"⟩ :
        API_Score.ScorePostBody).highscore = JsVal.undef ∨
      (⟨JsVal.undef, JsVal.num 100, JsVal.str "Bob"⟩ :
        API_Score.ScorePostBody).name = JsVal.undef) ∧
     ((⟨JsVal.str "VERSION1", JsVal.num 100, JsVal.undef⟩ :
        API_Score.ScoreDeleteBody).service = JsVal.undef ∨
      (⟨JsVal.str "VERSION1", JsVal.num 100, JsVal.undef⟩ :
        API_Score.ScoreDeleteBody).highscore = JsVal.undef ∨
      (⟨JsVal.str "VERSION1", JsVal.num 100, JsVal.undef⟩ :
        API_Score.ScoreDeleteBody).name = JsVal.undef)) ∧
    (API_News.handleNewsPost ⟨JsVal.undef, JsVal.str "VERSION1", JsVal.str "t"⟩ [] none none =
      ⟨some (Response.msg "Didnt provide all information needed"), [], []⟩ ∧
     API_News.handleDeleteRequest ⟨JsVal.str "VERSION1", JsVal.undef⟩ [] none =
      ⟨some (Response.msg "invalid request"), [], []⟩ ∧
     API_Score.handleScorePost ⟨JsVal.undef, JsVal.num 100, JsVal.str "Bob"⟩ [] none =
      ⟨some (Response.msg "Invalid params"), [], []⟩ ∧
     API_Score.handleDeleteRequest ⟨JsVal.str "VERSION1", JsVal.num 100, JsVal.undef⟩ [] none =
      ⟨some (Response.msg "invalid request"), [], []⟩) :=
  ⟨⟨Or.inl rfl, Or.inr rfl, Or.inl rfl, Or.inr (Or.inr rfl)⟩,
   C3_missing_field_no_store_contact [] [] none none none none none
     ⟨JsVal.undef, JsVal.str "VERSION1", JsVal.str "t"⟩
     ⟨JsVal.str "VERSION1", JsVal.undef⟩
     ⟨JsVal.undef, JsVal.num 100, JsVal.str "Bob"⟩
     ⟨JsVal.str "VERSION1", JsVal.num 100, JsVal.undef⟩
     (Or.inl rfl) (Or.inr rfl) (Or.inl rfl) (Or.inr (Or.inr rfl))⟩

theorem queryScores_subset {store : List ScoreRow} {r : ScoreRow}
    (hr : r ∈ API_Score.queryScores store) :
    r ∈ store ∧ r.Service = "VERSION1" ∧ 0 ≤ r.Highscore := by
  unfold API_Score.queryScores API_Score.sortScoresDesc at hr
  have hr2 := (List.take_sublist 5 _).subset hr
  rw [List.Perm.mem_iff (List.perm_insertionSort _ _), List.mem_filter] at hr2
  simpa [and_assoc] using hr2

/-- C6: `getTopScores` queries only the fixed partition "VERSION1" and
returns at most 5 rows, ordered by Highscore descending (highest score
first). -/
theorem C6_getTopScores_spec (store : List ScoreRow) :
    (API_Score.queryScores store).length ≤ 5 ∧
    (API_Score.queryScores store).Pairwise (fun a b => b.Highscore ≤ a.Highscore) ∧
    (∀ r ∈ API_Score.queryScores store, r.Service = "VERSION1") ∧
    API_Score.handleGetScores store none =
      ⟨some (Response.scoreItems (API_Score.queryScores store)), store,
        [DbCall.queryScoresTable]⟩ := by
  refine ⟨?_, ?_, fun r hr => (queryScores_subset hr).2.1, rfl⟩
  · exact List.length_take_le 5 _
  · exact List.Pairwise.sublist (List.take_sublist 5 _) (List.sorted_insertionSort _ _)

/-- C7: `listNews` queries only the fixed partition "VERSION1" and, on a
key-unique table of nonnegative PostIDs, returns exactly the rows of that
partition in strictly descending PostID order. -/
theorem C7_listNews_spec (store : List NewsRow) (hwf : NewsWF store)
    (hnn : ∀ r ∈ store, 0 ≤ r.PostID) :
    (∀ r, r ∈ API_News.queryNews store "VERSION1" ↔
      r ∈ store ∧ r.Service = "VERSION1") ∧
    (API_News.queryNews store "VERSION1").Pairwise (fun a b => b.PostID < a.PostID) ∧
    API_News.handleListNews store none =
      ⟨some (Response.newsItems (API_News.queryNews store "VERSION1")), store,
        [DbCall.queryNewsTable "VERSION1"]⟩ := by
  refine ⟨?_, ?_, rfl⟩
  · intro r
    rw [mem_queryNews]
    exact ⟨fun hx => ⟨hx.1, hx.2.1⟩, fun hx => ⟨hx.1, hx.2, hnn r hx.1⟩⟩
  · have hge : (API_News.queryNews store "VERSION1").Pairwise
        (fun a b => b.PostID ≤ a.PostID) := sorted_queryNews store "VERSION1"
    have hkey : (API_News.queryNews store "VERSION1").Pairwise
        (fun a b => ¬(a.Service = b.Service ∧ a.PostID = b.PostID)) := by
      unfold API_News.queryNews API_News.sortNewsDesc
      exact ((List.perm_insertionSort _ _).pairwise_iff
        (fun hab => newsKeyRel_symm hab)).mpr (List.Pairwise.filter _ hwf)
    refine List.Pairwise.imp_of_mem ?_ (hge.and hkey)
    intro a b ha hb hab
    have haS : a.Service = "VERSION1" := (mem_queryNews.mp ha).2.1
    have hbS : b.Service = "VERSION1" := (mem_queryNews.mp hb).2.1
    refine lt_of_le_of_ne hab.1 (fun heq => hab.2 ⟨haS.trans hbS.symm, heq.symm⟩)

/-- C7 witness: the theorem applied at a concrete two-row store. -/
theorem C7_witness :
    (NewsWF [({ Heading := "h1", PostID := 4, Service := "VERSION1", Text := "t1" } : NewsRow),
             { Heading := "h2", PostID := 2, Service := "VERSION1", Text := "t2" }] ∧
      (∀ r ∈ [({ Heading := "h1", PostID := 4, Service := "VERSION1", Text := "t1" } : NewsRow),
              { Heading := "h2", PostID := 2, Service := "VERSION1", Text := "t2" }],
        0 ≤ r.PostID)) ∧
    ((∀ r, r ∈ API_News.queryNews
        [{ Heading := "h1", PostID := 4, Service := "VERSION1", Text := "t1" },
         { Heading := "h2", PostID := 2, Service := "VERSION1", Text := "t2" }] "VERSION1" ↔
      r ∈ [({ Heading := "h1", PostID := 4, Service := "VERSION1", Text := "t1" } : NewsRow),
           { Heading := "h2", PostID := 2, Service := "VERSION1", Text := "t2" }] ∧
        r.Service = "VERSION1") ∧
    (API_News.queryNews
        [{ Heading := "h1", PostID := 4, Service := "VERSION1", Text := "t1" },
         { Heading := "h2", PostID := 2, Service := "VERSION1", Text := "t2" }]
        "VERSION1").Pairwise (fun a b => b.PostID < a.PostID) ∧
    API_News.handleListNews
        [{ Heading := "h1", PostID := 4, Service := "VERSION1", Text := "t1" },
         { Heading := "h2", PostID := 2, Service := "VERSION1", Text := "t2" }] none =
      ⟨some (Response.newsItems (API_News.queryNews
        [{ Heading := "h1", PostID := 4, Service := "VERSION1", Text := "t1" },
         { Heading := "h2", PostID := 2, Service := "VERSION1", Text := "t2" }] "VERSION1")),
       [{ Heading := "h1", PostID := 4, Service := "VERSION1", Text := "t1" },
        { Heading := "h2", PostID := 2, Service := "VERSION1", Text := "t2" }],
       [DbCall.queryNewsTable "VERSION1"]⟩) :=
  ⟨⟨by unfold NewsWF; decide, by decide⟩,
   C7_listNews_spec
     [{ Heading := "h1", PostID := 4, Service := "VERSION1", Text := "t1" },
      { Heading := "h2", PostID := 2, Service := "VERSION1", Text := "t2" }]
     (by unfold NewsWF; decide) (by decide)⟩

theorem conditionalDelete_spec (store : List ScoreRow) (s : String) (h : Int) (n : String)
    (hwf : ScoresWF store) :
    ((∃ r ∈ store, r.Service = s ∧ r.Highscore = h ∧ r.Name = n) →
      API_Score.conditionalDelete store s h n =
        Except.ok (store.filter (fun x => !(x.Service == s && x.Highscore == h)))) ∧
    (¬(∃ r ∈ store, r.Service = s ∧ r.Highscore = h ∧ r.Name = n) →
      API_Score.conditionalDelete store s h n =
        Except.error "ConditionalCheckFailedException") := by
  constructor
  · rintro ⟨r, hr, hrs, hrh, hrn⟩
    cases hf : store.find? (fun x => x.Service == s && x.Highscore == h) with
    | none =>
      have hsome : (store.find? (fun x => x.Service == s && x.Highscore == h)).isSome :=
        List.find?_isSome.mpr ⟨r, hr, by simp [hrs, hrh]⟩
      rw [hf] at hsome
      exact absurd hsome (by simp)
    | some row =>
      have hmem := List.mem_of_find?_eq_some hf
      have hp := List.find?_some hf
      simp only [Bool.and_eq_true, beq_iff_eq] at hp
      have hrow : row = r := scoresKey_unique hwf hmem hr (by rw [hp.1, hrs]) (by rw [hp.2, hrh])
      unfold API_Score.conditionalDelete
      rw [hf]
      simp [hrow, hrn]
  · intro hne
    cases hf : store.find? (fun x => x.Service == s && x.Highscore == h) with
    | none =>
      unfold API_Score.conditionalDelete
      rw [hf]
    | some row =>
      have hmem := List.mem_of_find?_eq_some hf
      have hp := List.find?_some hf
      simp only [Bool.and_eq_true, beq_iff_eq] at hp
      have hname : row.Name ≠ n := fun hc => hne ⟨row, hmem, hp.1, hp.2, hc⟩
      unfold API_Score.conditionalDelete
      rw [hf]
      simp [hname]

/-- C4: on a key-unique table, a valid `deleteScore` removes the row
keyed by (service, highscore) and reports success exactly when a row
exists at that key with the given Name; otherwise the store's
conditional-check error is passed through in the response and the table
is unchanged. -/
theorem C4_deleteScore_conditional (store : List ScoreRow) (s n : String) (h : Int)
    (hwf : ScoresWF store) (hs : s ≠ "") (hn : n ≠ "") (hh : h ≠ 0) :
    ((∃ r ∈ store, r.Service = s ∧ r.Highscore = h ∧ r.Name = n) →
      API_Score.handleDeleteRequest ⟨JsVal.str s, JsVal.num h, JsVal.str n⟩ store none =
        ⟨some (Response.msg "item deleted successful"),
         store.filter (fun x => !(x.Service == s && x.Highscore == h)),
         [DbCall.deleteScoreItem s h n]⟩) ∧
    (¬(∃ r ∈ store, r.Service = s ∧ r.Highscore = h ∧ r.Name = n) →
      API_Score.handleDeleteRequest ⟨JsVal.str s, JsVal.num h, JsVal.str n⟩ store none =
        ⟨some (Response.msgErr "ConditionalCheckFailedException"), store,
         [DbCall.deleteScoreItem s h n]⟩) := by
  have hcond : ((JsVal.str s).truthy && (JsVal.str n).truthy && (JsVal.num h).truthy) = true := by
    simp [JsVal.truthy, hs, hn, hh]
  constructor
  · intro hex
    have hcd := (conditionalDelete_spec store s h n hwf).1 hex
    simp [API_Score.handleDeleteRequest, hcond, JsVal.asString, JsVal.asKeyNum, hcd]
  · intro hne
    have hcd := (conditionalDelete_spec store s h n hwf).2 hne
    simp [API_Score.handleDeleteRequest, hcond, JsVal.asString, JsVal.asKeyNum, hcd]

/-- C4 witness: scenario 3 of the spec — stored Name is "Bob", the delete
names "Alice" and fails; naming "Bob" succeeds and removes the row. -/
theorem C4_witness :
    (ScoresWF [({ Service := "VERSION1", Highscore := 100, Name := "Bob" } : ScoreRow)] ∧
      (("VERSION1" : String) ≠ "") ∧ (("Bob" : String) ≠ "") ∧ ((100 : Int) ≠ 0)) ∧
    (((∃ r ∈ [({ Service := "VERSION1", Highscore := 100, Name := "Bob" } : ScoreRow)],
        r.Service = "VERSION1" ∧ r.Highscore = 100 ∧ r.Name = "Bob") →
      API_Score.handleDeleteRequest ⟨JsVal.str "VERSION1", JsVal.num 100, JsVal.str "Bob"⟩
          [{ Service := "VERSION1", Highscore := 100, Name := "Bob" }] none =
        ⟨some (Response.msg "item deleted successful"),
         [({ Service := "VERSION1", Highscore := 100, Name := "Bob" } : ScoreRow)].filter
           (fun x => !(x.Service == "VERSION1" && x.Highscore == 100)),
         [DbCall.deleteScoreItem "VERSION1" 100 "Bob"]⟩) ∧
    (¬(∃ r ∈ [({ Service := "VERSION1", Highscore := 100, Name := "Bob" } : ScoreRow)],
        r.Service = "VERSION1" ∧ r.Highscore = 100 ∧ r.Name = "Bob") →
      API_Score.handleDeleteRequest ⟨JsVal.str "VERSION1", JsVal.num 100, JsVal.str "Bob"⟩
          [{ Service := "VERSION1", Highscore := 100, Name := "Bob" }] none =
        ⟨some (Response.msgErr "ConditionalCheckFailedException"),
         [{ Service := "VERSION1", Highscore := 100, Name := "Bob" }],
         [DbCall.deleteScoreItem "VERSION1" 100 "Bob"]⟩)) :=
  ⟨⟨by unfold ScoresWF; decide, by decide, by decide, by decide⟩,
   C4_deleteScore_conditional [{ Service := "VERSION1", Highscore := 100, Name := "Bob" }]
     "VERSION1" "Bob" 100 (by unfold ScoresWF; decide) (by decide) (by decide) (by decide)⟩

/-- C2 counterexample: when the store reports an error, the query-error
branches of `handleListNews`, `handleGetScores` and the ID-allocation
query inside `handleNewsPost` only log it — `res.json` is never called,
so no JSON response is produced and the request is left unanswered. -/
theorem C2_counterexample :
    (API_News.handleListNews [] (some "InternalServerError")).response = none ∧
    (API_Score.handleGetScores [] (some "InternalServerError")).response = none ∧
    (API_News.handleNewsPost ⟨JsVal.str "Patch", JsVal.str "VERSION1", JsVal.str "Fixed"⟩ []
      (some "InternalServerError") none).response = none := by decide

/-- C2 amended: the error branches of the write and delete calls
(`postNews` put, `deleteNews`, `postScore` put, `deleteScore`) each send
a JSON message response, while the error branches of the three queries
(`listNews`, `getTopScores`, and the ID-allocation query) only log and
send no response. -/
theorem C2_amended_error_responses (storeN : List NewsRow) (storeS : List ScoreRow)
    (e : String) (pe : Option String)
    (nb : API_News.NewsPostBody) (db : API_News.NewsDeleteBody)
    (sb : API_Score.ScorePostBody) (sdb : API_Score.ScoreDeleteBody)
    (hnb : (nb.heading.truthy && nb.service.truthy && nb.text.truthy) = true)
    (hdb : (db.service.truthy && db.postID.truthy) = true)
    (hsb : (sb.service.truthy && sb.highscore.truthy && sb.name.truthy) = true)
    (hsdb : (sdb.service.truthy && sdb.name.truthy && sdb.highscore.truthy) = true) :
    (API_News.handleListNews storeN (some e)).response = none ∧
    (API_Score.handleGetScores storeS (some e)).response = none ∧
    (API_News.handleNewsPost nb storeN (some e) pe).response = none ∧
    (API_News.handleNewsPost nb storeN none (some e)).response = some (Response.msgErr e) ∧
    (API_News.handleDeleteRequest db storeN (some e)).response = some (Response.msgErr e) ∧
    (API_Score.handleScorePost sb storeS (some e)).response =
      some (Response.msg "Score Post Failed") ∧
    (API_Score.handleDeleteRequest sdb storeS (some e)).response =
      some (Response.msgErr e) := by
  refine ⟨rfl, rfl, ?_, ?_, ?_, ?_, ?_⟩ <;>
    simp [API_News.handleNewsPost, API_News.handleDeleteRequest,
      API_Score.handleScorePost, API_Score.handleDeleteRequest, hnb, hdb, hsb, hsdb]

/-- C2 witness: the amended theorem applied at concrete valid bodies. -/
theorem C2_witness :
    ((((JsVal.str "Patch").truthy && (JsVal.str "VERSION1").truthy &&
        (JsVal.str "Fixed").truthy) = true) ∧
     (((JsVal.str "VERSION1").truthy && (JsVal.str "3").truthy) = true) ∧
     (((JsVal.str "VERSION1").truthy && (JsVal.num 100).truthy &&
        (JsVal.str "Bob").truthy) = true) ∧
     (((JsVal.str "VERSION1").truthy && (JsVal.str "Bob").truthy &&
        (JsVal.num 100).truthy) = true)) ∧
    ((API_News.handleListNews [] (some "err")).response = none ∧
     (API_Score.handleGetScores [] (some "err")).response = none ∧
     (API_News.handleNewsPost ⟨JsVal.str "Patch", JsVal.str "VERSION1", JsVal.str "Fixed"⟩
        [] (some "err") none).response = none ∧
     (API_News.handleNewsPost ⟨JsVal.str "Patch", JsVal.str "VERSION1", JsVal.str "Fixed"⟩
        [] none (some "err")).response = some (Response.msgErr "err") ∧
     (API_News.handleDeleteRequest ⟨JsVal.str "VERSION1", JsVal.str "3"⟩
        [] (some "err")).response = some (Response.msgErr "err") ∧
     (API_Score.handleScorePost ⟨JsVal.str "VERSION1", JsVal.num 100, JsVal.str "Bob"⟩
        [] (some "err")).response = some (Response.msg "Score Post Failed") ∧
     (API_Score.handleDeleteRequest ⟨JsVal.str "VERSION1", JsVal.num 100, JsVal.str "Bob"⟩
        [] (some "err")).response = some (Response.msgErr "err")) :=
  ⟨⟨by decide, by decide, by decide, by decide⟩,
   C2_amended_error_responses [] [] "err" none
     ⟨JsVal.str "Patch", JsVal.str "VERSION1", JsVal.str "Fixed"⟩
     ⟨JsVal.str "VERSION1", JsVal.str "3"⟩
     ⟨JsVal.str "VERSION1", JsVal.num 100, JsVal.str "Bob"⟩
     ⟨JsVal.str "VERSION1", JsVal.num 100, JsVal.str "Bob"⟩
     (by decide) (by decide) (by decide) (by decide)⟩

/-- C10: a required field that is present but JavaScript-falsy (empty
string, or the number 0 — e.g. postID 0 on deleteNews, highscore 0 on
postScore/deleteScore) is treated as missing: the handler returns the
validation-failure message and contacts the store with no call; in
particular a news post with allocated ID "0" cannot be deleted by
sending postID as the number 0. -/
theorem C10_falsy_field_rejected (storeN : List NewsRow) (storeS : List ScoreRow)
    (qe pe de pe2 de2 de3 : Option String)
    (nb : API_News.NewsPostBody) (db : API_News.NewsDeleteBody)
    (sb : API_Score.ScorePostBody) (sdb : API_Score.ScoreDeleteBody)
    (hnb : nb.heading.falsyValue ∨ nb.service.falsyValue ∨ nb.text.falsyValue)
    (hdb : db.service.falsyValue ∨ db.postID.falsyValue)
    (hsb : sb.service.falsyValue ∨ sb.highscore.falsyValue ∨ sb.name.falsyValue)
    (hsdb : sdb.service.falsyValue ∨ sdb.highscore.falsyValue ∨ sdb.name.falsyValue) :
    (JsVal.str "").truthy = false ∧ (JsVal.num 0).truthy = false ∧
    API_News.handleNewsPost nb storeN qe pe =
      ⟨some (Response.msg "Didnt provide all information needed"), storeN, []⟩ ∧
    API_News.handleDeleteRequest db storeN de =
      ⟨some (Response.msg "invalid request"), storeN, []⟩ ∧
    API_Score.handleScorePost sb storeS pe2 =
      ⟨some (Response.msg "Invalid params"), storeS, []⟩ ∧
    API_Score.handleDeleteRequest sdb storeS de2 =
      ⟨some (Response.msg "invalid request"), storeS, []⟩ ∧
    API_News.handleDeleteRequest ⟨JsVal.str "VERSION1", JsVal.num 0⟩ storeN de3 =
      ⟨some (Response.msg "invalid request"), storeN, []⟩ := by
  have hfv : ∀ v : JsVal, v.falsyValue → v.truthy = false := by
    intro v hv
    rcases hv with hx | hx <;> simp [hx, JsVal.truthy]
  refine ⟨rfl, rfl, ?_, ?_, ?_, ?_, ?_⟩
  · have hc : (nb.heading.truthy && nb.service.truthy && nb.text.truthy) = false := by
      rcases hnb with hx | hx | hx <;> simp [hfv _ hx]
    simp [API_News.handleNewsPost, hc]
  · have hc : (db.service.truthy && db.postID.truthy) = false := by
      rcases hdb with hx | hx <;> simp [hfv _ hx]
    simp [API_News.handleDeleteRequest, hc]
  · have hc : (sb.service.truthy && sb.highscore.truthy && sb.name.truthy) = false := by
      rcases hsb with hx | hx | hx <;> simp [hfv _ hx]
    simp [API_Score.handleScorePost, hc]
  · have hc : (sdb.service.truthy && sdb.name.truthy && sdb.highscore.truthy) = false := by
      rcases hsdb with hx | hx | hx <;> simp [hfv _ hx]
    simp [API_Score.handleDeleteRequest, hc]
  · simp [API_News.handleDeleteRequest, JsVal.truthy]

/-- C10 witness: postID sent as the number 0, highscore as empty string
and as the number 0. -/
theorem C10_witness :
    (((⟨JsVal.str "", JsVal.str "VERSION1", JsVal.str "t"⟩ :
        API_News.NewsPostBody).heading.falsyValue ∨
      (⟨JsVal.str "", JsVal.str "VERSION1", JsVal.str "t"⟩ :
        API_News.NewsPostBody).service.falsyValue ∨
      (⟨JsVal.str "", JsVal.str "VERSION1", JsVal.str "t"⟩ :
        API_News.NewsPostBody).text.falsyValue) ∧
     ((⟨JsVal.str "VERSION1", JsVal.num 0⟩ : API_News.NewsDeleteBody).service.falsyValue ∨
      (⟨JsVal.str "VERSION1", JsVal.num 0⟩ : API_News.NewsDeleteBody).postID.falsyValue) ∧
     ((⟨JsVal.str "VERSION1", JsVal.num 0, JsVal.str "Bob"⟩ :
        API_Score.ScorePostBody).service.falsyValue ∨
      (⟨JsVal.str "VERSION1", JsVal.num 0, JsVal.str "Bob"⟩ :
        API_Score.ScorePostBody).highscore.falsyValue ∨
      (⟨JsVal.str "VERSION1", JsVal.num 0, JsVal.str "Bob"⟩ :
        API_Score.ScorePostBody).name.falsyValue) ∧
     ((⟨JsVal.str "VERSION1", JsVal.str "", JsVal.str "Bob"⟩ :
        API_Score.ScoreDeleteBody).service.falsyValue ∨
      (⟨JsVal.str "VERSION1", JsVal.str "", JsVal.str "Bob"⟩ :
        API_Score.ScoreDeleteBody).highscore.falsyValue ∨
      (⟨JsVal.str "VERSION1", JsVal.str "", JsVal.str "Bob"⟩ :
        API_Score.ScoreDeleteBody).name.falsyValue)) ∧
    ((JsVal.str "").truthy = false ∧ (JsVal.num 0).truthy = false ∧
     API_News.handleNewsPost ⟨JsVal.str "", JsVal.str "VERSION1", JsVal.str "t"⟩ [] none none =
      ⟨some (Response.msg "Didnt provide all information needed"), [], []⟩ ∧
     API_News.handleDeleteRequest ⟨JsVal.str "VERSION1", JsVal.num 0⟩ [] none =
      ⟨some (Response.msg "invalid request"), [], []⟩ ∧
     API_Score.handleScorePost ⟨JsVal.str "VERSION1", JsVal.num 0, JsVal.str "Bob"⟩ [] none =
      ⟨some (Response.msg "Invalid params"), [], []⟩ ∧
     API_Score.handleDeleteRequest ⟨JsVal.str "VERSION1", JsVal.str "", JsVal.str "Bob"⟩
        [] none =
      ⟨some (Response.msg "invalid request"), [], []⟩ ∧
     API_News.handleDeleteRequest ⟨JsVal.str "VERSION1", JsVal.num 0⟩ [] none =
      ⟨some (Response.msg "invalid request"), [], []⟩) :=
  ⟨⟨Or.inl (Or.inl rfl), Or.inr (Or.inr rfl), Or.inr (Or.inl (Or.inr rfl)),
    Or.inr (Or.inl (Or.inl rfl))⟩,
   C10_falsy_field_rejected [] [] none none none none none none
     ⟨JsVal.str "", JsVal.str "VERSION1", JsVal.str "t"⟩
     ⟨JsVal.str "VERSION1", JsVal.num 0⟩
     ⟨JsVal.str "VERSION1", JsVal.num 0, JsVal.str "Bob"⟩
     ⟨JsVal.str "VERSION1", JsVal.str "", JsVal.str "Bob"⟩
     (Or.inl (Or.inl rfl)) (Or.inr (Or.inr rfl)) (Or.inr (Or.inl (Or.inr rfl)))
     (Or.inr (Or.inl (Or.inl rfl)))⟩

end MobileGameDev
